import Mathlib

/-!
Shallow embedding of the niftithings volume-processing module
(src/niftithings/nifti.py) and proofs about its resampling,
orthogonalization and affine-geometry routines.

Numbers are idealized as exact rationals (header zooms, affine entries,
zoom factors) and reals (array values, angles); numpy float tolerance
checks (np.allclose) are idealized as exact equality.  External
collaborators (scipy.ndimage.zoom, scipy.ndimage.gaussian_filter,
arraythings.downsample_array, and the dicom2nifti oblique resampler) are
parameters of the embedding: the module only composes them.
-/

/-- Python round() on an exact rational: round half to even. -/
def pyRound (x : ℚ) : ℤ :=
  if Int.fract x = 1/2 then (if ⌊x⌋ % 2 = 0 then ⌊x⌋ else ⌊x⌋ + 1) else round x

/-- Python int() on an exact rational: truncation toward zero. -/
def pyInt (x : ℚ) : ℤ := if 0 ≤ x then ⌊x⌋ else ⌈x⌉

/-- A dense N-dimensional numpy array: a shape together with the value held
at each index vector (values at out-of-range indices are irrelevant). -/
structure NDArray where
  shape : List ℕ
  val : List ℕ → ℝ

/-- idx lies in the box [0, box) componentwise, with matching rank. -/
def inBoxB (idx box : List ℕ) : Bool :=
  idx.length == box.length && (idx.zip box).all fun p => decide (p.1 < p.2)

/-- A 4x4 voxel-to-world affine, indexed (row, column). -/
abbrev Affine4 := ℕ → ℕ → ℚ

/-- An in-memory volume: data array, affine and per-axis header zooms
(nibabel Nifti1Image as used by the module). -/
structure Volume where
  data : NDArray
  affine : Affine4
  zooms : List ℚ

/-- The external N-dimensional resampling primitives the module calls:
scipy.ndimage.zoom (array, zoom factors, spline order; mode="nearest" is
fixed at the call site), scipy.ndimage.gaussian_filter (array, sigmas;
mode="nearest" fixed) and arraythings.downsample_array (array, window
sizes). -/
structure Externals where
  zoom : NDArray → List ℚ → ℤ → NDArray
  gaussian_filter : NDArray → List ℝ → NDArray
  downsample_array : NDArray → List ℤ → NDArray

/-- The order argument of resample_nifti: an integer spline order, or the
string "mean". -/
inductive PyOrder where
  | mean
  | ord (n : ℤ)

/-- The errors the module raises; each carries exactly the data its Python
message interpolates. -/
inductive PyErr where
  | assertDimMismatch
  | assertAffineZoomsInconsistent
  | assertMeanIntegerFactor (input_zooms : List ℚ)
  | assertRefZoomsMismatch
  | assertAffineShape
  | externalError (msg : String)
deriving DecidableEq

/-- Sum of squares of the spatial (first three rows) part of column j of
the affine: the square of np.linalg.norm(affine[:3, j]). -/
def spatialColSq (A : Affine4) (j : ℕ) : ℚ :=
  A 0 j * A 0 j + A 1 j * A 1 j + A 2 j * A 2 j

/-- The assert np.allclose(input_zooms[:3], np.linalg.norm(affine[:3,:3], 2, axis=0)),
idealized exactly: there are at least 3 axes (as numpy broadcasting of the
two operands requires), each spatial zoom is nonnegative and squares to the
column sum of squares. -/
def affineConsistent (A : Affine4) (zs : List ℚ) : Prop :=
  3 ≤ zs.length ∧ ∀ j < 3, 0 ≤ zs.getD j 0 ∧ zs.getD j 0 * zs.getD j 0 = spatialColSq A j

instance affineConsistentDec (A : Affine4) (zs : List ℚ) : Decidable (affineConsistent A zs) := by
  unfold affineConsistent; infer_instance

/-- None entries of output_zooms mean "keep the input zoom". -/
def resolvedZooms (input_zooms : List ℚ) (output_zooms : List (Option ℚ)) : List ℚ :=
  List.zipWith (fun iz oz => oz.getD iz) input_zooms output_zooms

/-- Mean-mode precondition: every axis satisfies 4/3 * output_zoom >= input_zoom. -/
def meanPrecond (output_zooms input_zooms : List ℚ) : Prop :=
  ∀ p ∈ output_zooms.zip input_zooms, 4/3 * p.1 ≥ p.2

instance meanPrecondDec (o i : List ℚ) : Decidable (meanPrecond o i) := by
  unfold meanPrecond; infer_instance

/-- Per-axis mean-mode zoom factor:
1 if input_zoom > 2/3 * output_zoom else 1 / int(round(output_zoom / input_zoom)). -/
def meanFactor (iz oz : ℚ) : ℚ :=
  if iz > 2/3 * oz then 1 else 1 / (pyRound (oz / iz) : ℚ)

/-- zoom_factors of the mean branch. -/
def meanZoomFactors (input_zooms output_zooms : List ℚ) : List ℚ :=
  List.zipWith meanFactor input_zooms output_zooms

/-- window_sizes = [int(1 / zoom_factor) for zoom_factor in zoom_factors]. -/
def windowSizes (zoom_factors : List ℚ) : List ℤ :=
  zoom_factors.map fun f => pyInt (1 / f)

/-- zoom_factors of the spline branch: input_zoom / output_zoom per axis. -/
def splineZoomFactors (input_zooms output_zooms : List ℚ) : List ℚ :=
  List.zipWith (fun iz oz => iz / oz) input_zooms output_zooms

/-- Gaussian prefilter sigmas: sqrt(((1/zoom_factor)^2 - 1)/12) when
zoom_factor < 1 (downsampling), else 0. -/
noncomputable def sigmaList (zoom_factors : List ℚ) : List ℝ :=
  zoom_factors.map fun f => if f < 1 then Real.sqrt (((1 / (f : ℝ))^2 - 1) / 12) else 0

/-- output_affine[:3, :3] = input_affine[:3, :3] / zoom_factors[:3]
(numpy broadcasting divides column j by zoom_factors[j]); all other
entries are copied unchanged. -/
def rescaleAffine (A : Affine4) (zoom_factors : List ℚ) : Affine4 :=
  fun i j => if i < 3 ∧ j < 3 then A i j / zoom_factors.getD j 1 else A i j

/-- np.zeros_like(reference) with the overlapping region
(slice(min(s, s_)) on every axis, anchored at index 0) copied from the
computed output array. -/
def refReconcile (out ref : NDArray) : NDArray :=
  ⟨ref.shape, fun idx =>
    if inBoxB idx (List.zipWith min out.shape ref.shape) then out.val idx else 0⟩

/-- The body of resample_nifti up to (and excluding) reference
reconciliation: the asserts, the output-zoom resolution and the two
interpolation branches.  Returns (output_zooms, zoom_factors, output_array).
The dimension and consistency asserts precede the branch on order, as in
the source; they are stated per branch only so that each branch is a plain
guard chain. -/
noncomputable def computeCore (ext : Externals) (input_nii : Volume)
    (output_zooms : List (Option ℚ)) (order : PyOrder) (prefilter : Bool) :
    Except PyErr (List ℚ × List ℚ × NDArray) :=
  match order with
  | PyOrder.mean =>
    if input_nii.zooms.length = output_zooms.length then
      if affineConsistent input_nii.affine input_nii.zooms then
        if meanPrecond (resolvedZooms input_nii.zooms output_zooms) input_nii.zooms then
          Except.ok
            (List.zipWith (fun iz f => iz / f) input_nii.zooms
              (meanZoomFactors input_nii.zooms (resolvedZooms input_nii.zooms output_zooms)),
             meanZoomFactors input_nii.zooms (resolvedZooms input_nii.zooms output_zooms),
             ext.downsample_array input_nii.data
               (windowSizes (meanZoomFactors input_nii.zooms
                 (resolvedZooms input_nii.zooms output_zooms))))
        else Except.error (PyErr.assertMeanIntegerFactor input_nii.zooms)
      else Except.error PyErr.assertAffineZoomsInconsistent
    else Except.error PyErr.assertDimMismatch
  | PyOrder.ord n =>
    if input_nii.zooms.length = output_zooms.length then
      if affineConsistent input_nii.affine input_nii.zooms then
        Except.ok
          (resolvedZooms input_nii.zooms output_zooms,
           splineZoomFactors input_nii.zooms (resolvedZooms input_nii.zooms output_zooms),
           ext.zoom
             (if prefilter then
               ext.gaussian_filter input_nii.data
                 (sigmaList (splineZoomFactors input_nii.zooms
                   (resolvedZooms input_nii.zooms output_zooms)))
              else input_nii.data)
             (splineZoomFactors input_nii.zooms (resolvedZooms input_nii.zooms output_zooms))
             n)
      else Except.error PyErr.assertAffineZoomsInconsistent
    else Except.error PyErr.assertDimMismatch

/-- Reference reconciliation and output affine choice: with a reference,
assert equal zooms, zero-fill to the reference shape, copy the overlap and
reuse the reference affine; without one, rescale the input affine. -/
noncomputable def finishResample (input_nii : Volume) (reference_nii : Option Volume)
    (ozs zoom_factors : List ℚ) (output_array : NDArray) : Except PyErr Volume :=
  match reference_nii with
  | some ref =>
    if ozs = ref.zooms then
      Except.ok ⟨refReconcile output_array ref.data, ref.affine, ozs⟩
    else Except.error PyErr.assertRefZoomsMismatch
  | none =>
    Except.ok ⟨output_array, rescaleAffine input_nii.affine zoom_factors, ozs⟩

/-- resample_nifti: computeCore followed by reference reconciliation, the
output affine choice and header.set_zooms(output_zooms). -/
noncomputable def resample_nifti (ext : Externals) (input_nii : Volume)
    (output_zooms : List (Option ℚ)) (order : PyOrder) (prefilter : Bool)
    (reference_nii : Option Volume) : Except PyErr Volume :=
  match computeCore ext input_nii output_zooms order prefilter with
  | Except.error e => Except.error e
  | Except.ok (ozs, zoom_factors, output_array) =>
    finishResample input_nii reference_nii ozs zoom_factors output_array

/-- The dicom2nifti global settings touched by orthogonalize_nifti. -/
structure D2NSettings where
  resample_padding : ℤ
  resample_spline_interpolation_order : ℤ
deriving DecidableEq

/-- The dicom2nifti defaults: padding 0, spline order 0. -/
def d2nDefaults : D2NSettings := ⟨0, 0⟩

/-- The external dicom2nifti resample capability; its behavior may depend
on the global settings in effect when it is invoked. -/
structure D2NResampler where
  resample_nifti_images : D2NSettings → List Volume → Except PyErr (List Volume)

/-- orthogonalize_nifti: set padding, set spline order, invoke the external
resampler, then set order back to 0 and padding back to 0.  The Python code
performs the two restoring calls only after a successful invocation (there
is no try/finally), so a raised error propagates with the configured
settings still in place.  Returns the result together with the final
global settings. -/
def orthogonalize_nifti (d2n : D2NResampler) (image : Volume)
    (resample_padding resample_spline_interpolation_order : ℤ)
    (s : D2NSettings) : Except PyErr (List Volume) × D2NSettings :=
  let s1 : D2NSettings := { s with resample_padding := resample_padding }
  let s2 : D2NSettings :=
    { s1 with resample_spline_interpolation_order := resample_spline_interpolation_order }
  match d2n.resample_nifti_images s2 [image] with
  | Except.error e => (Except.error e, s2)
  | Except.ok vols =>
      (Except.ok vols,
       { { s2 with resample_spline_interpolation_order := 0 } with resample_padding := 0 })

/-- A numpy matrix of reals: dimensions and entries, indexed (row, column). -/
structure PyMatrix where
  rows : ℕ
  cols : ℕ
  entry : ℕ → ℕ → ℝ

/-- np.sum(affine[:, i] * affine[:, j]): dot product of two full
4-component columns. -/
noncomputable def colDot (A : PyMatrix) (i j : ℕ) : ℝ :=
  ∑ k in Finset.range 4, A.entry k i * A.entry k j

/-- np.linalg.norm(affine[:, i]): Euclidean norm of a full column. -/
noncomputable def colNorm (A : PyMatrix) (i : ℕ) : ℝ :=
  Real.sqrt (colDot A i i)

/-- Angle in radians between full columns i and j. -/
noncomputable def angleBetween (A : PyMatrix) (i j : ℕ) : ℝ :=
  Real.arccos (colDot A i j / (colNorm A i * colNorm A j))

/-- The same angle converted to degrees: x * 180 / np.pi. -/
noncomputable def angleDeg (A : PyMatrix) (i j : ℕ) : ℝ :=
  angleBetween A i j * 180 / Real.pi

/-- get_angles_between_axes: assert affine.shape == (4, 4), then the three
pairwise angles between the first three columns, in degrees when requested. -/
noncomputable def get_angles_between_axes (affine : PyMatrix) (in_degrees : Bool) :
    Except PyErr (ℝ × ℝ × ℝ) :=
  if affine.rows = 4 ∧ affine.cols = 4 then
    if in_degrees then
      Except.ok (angleDeg affine 0 1, angleDeg affine 0 2, angleDeg affine 1 2)
    else
      Except.ok (angleBetween affine 0 1, angleBetween affine 0 2, angleBetween affine 1 2)
  else Except.error PyErr.assertAffineShape

/-- A numpy boolean comparison a <= b on reals. -/
noncomputable def realLeB (a b : ℝ) : Bool :=
  @decide (a ≤ b) (Classical.propDecidable _)

/-- is_orthogonal_affine: the angles in degrees, then
np.abs(90 - angle) <= max_allowed for all three pairs. -/
noncomputable def is_orthogonal_affine (affine : PyMatrix)
    (max_allowed_angles_in_degrees : ℝ × ℝ × ℝ) : Except PyErr Bool :=
  match get_angles_between_axes affine true with
  | Except.error e => Except.error e
  | Except.ok (xy, xz, yz) =>
      Except.ok (realLeB |90 - xy| max_allowed_angles_in_degrees.1 &&
                 realLeB |90 - xz| max_allowed_angles_in_degrees.2.1 &&
                 realLeB |90 - yz| max_allowed_angles_in_degrees.2.2)

/-- The identity 4x4 affine. -/
def id4q : Affine4 := fun i j => if i = j then 1 else 0

/-- Affine with spatial scale 3: diag(3, 3, 3, 1). -/
def diag3 : Affine4 := fun i j => if i = j then (if i = 3 then 1 else 3) else 0

/-- A concrete unit-zoom volume. -/
noncomputable def volA : Volume := ⟨⟨[2, 2, 2], fun _ => 0⟩, id4q, [1, 1, 1]⟩

/-- A concrete volume with zooms (3, 3, 3). -/
noncomputable def vol3 : Volume := ⟨⟨[6, 6, 6], fun _ => 0⟩, diag3, [3, 3, 3]⟩

/-- A concrete reference volume of shape (3, 3, 3). -/
noncomputable def volR : Volume := ⟨⟨[3, 3, 3], fun _ => 5⟩, id4q, [1, 1, 1]⟩

/-- Externals that return their array argument unchanged. -/
noncomputable def trivExt : Externals := ⟨fun a _ _ => a, fun a _ => a, fun a _ => a⟩

/-- A 4x4 matrix whose columns 0 and 1 are (1,0,0,1) and (-1,0,0,1):
their spatial parts are antiparallel while the full 4-vectors are
orthogonal. -/
noncomputable def oblMat : PyMatrix :=
  ⟨4, 4, fun k i =>
    if i = 0 then (if k = 0 then 1 else if k = 3 then 1 else 0)
    else if i = 1 then (if k = 0 then -1 else if k = 3 then 1 else 0)
    else if i = 2 then (if k = 2 then 1 else 0)
    else (if k = 3 then 1 else 0)⟩

/-- The identity 4x4 real matrix. -/
noncomputable def idPyMat : PyMatrix := ⟨4, 4, fun i j => if i = j then 1 else 0⟩

/-- An external resampler that always raises. -/
def failingResampler : D2NResampler :=
  ⟨fun _ _ => Except.error (PyErr.externalError "resampling failed")⟩

/-! ## Helper lemmas -/

theorem pyInt_intCast (n : ℤ) : pyInt (n : ℚ) = n := by
  unfold pyInt
  split <;> simp

theorem pyRound_ge_two (x : ℚ) (h : 3/2 ≤ x) : 2 ≤ pyRound x := by
  unfold pyRound
  have hfl := Int.fract_add_floor x
  split
  · have h1 : (1 : ℤ) ≤ ⌊x⌋ := by
      have : (1 : ℚ) ≤ (⌊x⌋ : ℚ) := by
        rename_i hf
        rw [hf] at hfl
        linarith
      exact_mod_cast this
    split
    · rename_i h2
      omega
    · omega
  · rw [round_eq]
    refine Int.le_floor.mpr ?_
    push_cast
    linarith

theorem realLeB_true_iff (a b : ℝ) : realLeB a b = true ↔ a ≤ b := by
  unfold realLeB
  exact decide_eq_true_iff

theorem getD_ones (j : ℕ) : ([1, 1, 1] : List ℚ).getD j 1 = 1 := by
  rcases j with _ | _ | _ | j <;> simp [List.getD]

theorem rescaleAffine_ones (A : Affine4) : rescaleAffine A [1, 1, 1] = A := by
  funext i j
  unfold rescaleAffine
  rw [getD_ones, div_one, ite_self]

theorem volA_consistent : affineConsistent volA.affine volA.zooms := by
  constructor
  · simp [volA]
  · intro j hj
    interval_cases j <;> norm_num [volA, id4q, spatialColSq, List.getD]

theorem vol3_consistent : affineConsistent vol3.affine vol3.zooms := by
  constructor
  · simp [vol3]
  · intro j hj
    interval_cases j <;> norm_num [vol3, diag3, spatialColSq, List.getD]

theorem computeCore_mean_ok_inv (ext : Externals) (input_nii : Volume)
    (oz : List (Option ℚ)) (pf : Bool) (ozs fs : List ℚ) (arr : NDArray)
    (h : computeCore ext input_nii oz PyOrder.mean pf = Except.ok (ozs, fs, arr)) :
    fs = meanZoomFactors input_nii.zooms (resolvedZooms input_nii.zooms oz) ∧
    ozs = List.zipWith (fun iz f => iz / f) input_nii.zooms fs ∧
    arr = ext.downsample_array input_nii.data (windowSizes fs) := by
  simp only [computeCore] at h
  split at h
  · split at h
    · split at h
      · simp only [Except.ok.injEq, Prod.mk.injEq] at h
        obtain ⟨h1, h2, h3⟩ := h
        subst h2
        exact ⟨rfl, h1.symm, h3.symm⟩
      · exact absurd h (by simp)
    · exact absurd h (by simp)
  · exact absurd h (by simp)

theorem resample_ok_none_inv (ext : Externals) (input_nii : Volume) (oz : List (Option ℚ))
    (order : PyOrder) (pf : Bool) (ozs fs : List ℚ) (arr : NDArray) (v : Volume)
    (hc : computeCore ext input_nii oz order pf = Except.ok (ozs, fs, arr))
    (hv : resample_nifti ext input_nii oz order pf none = Except.ok v) :
    v = ⟨arr, rescaleAffine input_nii.affine fs, ozs⟩ := by
  unfold resample_nifti at hv
  rw [hc] at hv
  simp only [finishResample, Except.ok.injEq] at hv
  exact hv.symm

theorem resample_ok_ref_inv (ext : Externals) (input_nii : Volume) (oz : List (Option ℚ))
    (order : PyOrder) (pf : Bool) (ref : Volume) (ozs fs : List ℚ) (arr : NDArray) (v : Volume)
    (hc : computeCore ext input_nii oz order pf = Except.ok (ozs, fs, arr))
    (hv : resample_nifti ext input_nii oz order pf (some ref) = Except.ok v) :
    ozs = ref.zooms ∧ v = ⟨refReconcile arr ref.data, ref.affine, ozs⟩ := by
  unfold resample_nifti at hv
  rw [hc] at hv
  simp only [finishResample] at hv
  split at hv
  · rename_i hz
    simp only [Except.ok.injEq] at hv
    exact ⟨hz, hv.symm⟩
  · exact absurd hv (by simp)

/-! ## Claim theorems -/

/-- Claim C1 (code bug in orthogonalize_nifti): the spec requires the
external resampler defaults (padding 0, spline order 0) to be restored on
every exit path, including error exits; the code has no try/finally, so
when the external invocation raises (here with padding 5, order 3 from the
defaults), the global settings remain (5, 3) instead of being restored to
the defaults. -/
theorem orthogonalize_nifti_leaks_settings_on_error :
    (orthogonalize_nifti failingResampler volA 5 3 d2nDefaults).2 = ⟨5, 3⟩ ∧
    (orthogonalize_nifti failingResampler volA 5 3 d2nDefaults).2 ≠ d2nDefaults := by
  exact ⟨rfl, by decide⟩

/-- Claim C9: in mean mode the prefilter argument is never read, so
resample_nifti with prefilter true and false return identical results for
every input volume, requested zooms and reference volume. -/
theorem resample_mean_prefilter_noop (ext : Externals) (input_nii : Volume)
    (oz : List (Option ℚ)) (ref : Option Volume) :
    resample_nifti ext input_nii oz PyOrder.mean true ref =
      resample_nifti ext input_nii oz PyOrder.mean false ref := rfl

/-- Claim C2 (amended): get_angles_between_axes returns, for each pair
among the first three columns of the affine taken as full 4-component
columns (numpy slices affine[:, i], not just their spatial parts), the
angle arccos(dot(colA, colB) / (|colA| * |colB|)), multiplied by 180/pi
when in_degrees is true; a non-4x4 affine is rejected with an error. -/
theorem get_angles_between_axes_full_columns (A : PyMatrix) (b : Bool) :
    get_angles_between_axes A b =
      (if A.rows = 4 ∧ A.cols = 4 then
        (if b then
          Except.ok
            (Real.arccos ((∑ k in Finset.range 4, A.entry k 0 * A.entry k 1) /
                (Real.sqrt (∑ k in Finset.range 4, A.entry k 0 * A.entry k 0) *
                 Real.sqrt (∑ k in Finset.range 4, A.entry k 1 * A.entry k 1))) * 180 / Real.pi,
             Real.arccos ((∑ k in Finset.range 4, A.entry k 0 * A.entry k 2) /
                (Real.sqrt (∑ k in Finset.range 4, A.entry k 0 * A.entry k 0) *
                 Real.sqrt (∑ k in Finset.range 4, A.entry k 2 * A.entry k 2))) * 180 / Real.pi,
             Real.arccos ((∑ k in Finset.range 4, A.entry k 1 * A.entry k 2) /
                (Real.sqrt (∑ k in Finset.range 4, A.entry k 1 * A.entry k 1) *
                 Real.sqrt (∑ k in Finset.range 4, A.entry k 2 * A.entry k 2))) * 180 / Real.pi)
         else
          Except.ok
            (Real.arccos ((∑ k in Finset.range 4, A.entry k 0 * A.entry k 1) /
                (Real.sqrt (∑ k in Finset.range 4, A.entry k 0 * A.entry k 0) *
                 Real.sqrt (∑ k in Finset.range 4, A.entry k 1 * A.entry k 1))),
             Real.arccos ((∑ k in Finset.range 4, A.entry k 0 * A.entry k 2) /
                (Real.sqrt (∑ k in Finset.range 4, A.entry k 0 * A.entry k 0) *
                 Real.sqrt (∑ k in Finset.range 4, A.entry k 2 * A.entry k 2))),
             Real.arccos ((∑ k in Finset.range 4, A.entry k 1 * A.entry k 2) /
                (Real.sqrt (∑ k in Finset.range 4, A.entry k 1 * A.entry k 1) *
                 Real.sqrt (∑ k in Finset.range 4, A.entry k 2 * A.entry k 2)))))
      else Except.error PyErr.assertAffineShape) := rfl

/-- Claim C2 counterexample: on the 4x4 matrix oblMat, whose columns 0 and
1 have antiparallel spatial parts but orthogonal full 4-vectors, the code
returns (90, 90, 90) while the claimed spatial-components formula gives 180
for the first angle, and 90 is not 180. -/
theorem get_angles_between_axes_not_spatial_cex :
    get_angles_between_axes oblMat true = Except.ok (90, 90, 90) ∧
    Real.arccos ((∑ k in Finset.range 3, oblMat.entry k 0 * oblMat.entry k 1) /
        (Real.sqrt (∑ k in Finset.range 3, oblMat.entry k 0 * oblMat.entry k 0) *
         Real.sqrt (∑ k in Finset.range 3, oblMat.entry k 1 * oblMat.entry k 1))) * 180 / Real.pi
      = 180 ∧
    (90 : ℝ) ≠ 180 := by
  have hπ := Real.pi_ne_zero
  refine ⟨?_, ?_, by norm_num⟩
  · have h01 : colDot oblMat 0 1 = 0 := by
      norm_num [colDot, oblMat, Finset.sum_range_succ]
    have h02 : colDot oblMat 0 2 = 0 := by
      norm_num [colDot, oblMat, Finset.sum_range_succ]
    have h12 : colDot oblMat 1 2 = 0 := by
      norm_num [colDot, oblMat, Finset.sum_range_succ]
    have d01 : angleDeg oblMat 0 1 = 90 := by
      unfold angleDeg angleBetween
      rw [h01, zero_div, Real.arccos_zero]
      field_simp
      ring
    have d02 : angleDeg oblMat 0 2 = 90 := by
      unfold angleDeg angleBetween
      rw [h02, zero_div, Real.arccos_zero]
      field_simp
      ring
    have d12 : angleDeg oblMat 1 2 = 90 := by
      unfold angleDeg angleBetween
      rw [h12, zero_div, Real.arccos_zero]
      field_simp
      ring
    unfold get_angles_between_axes
    rw [if_pos ⟨rfl, rfl⟩, if_pos rfl, d01, d02, d12]
  · have hs01 : (∑ k in Finset.range 3, oblMat.entry k 0 * oblMat.entry k 1) = -1 := by
      norm_num [oblMat, Finset.sum_range_succ]
    have hs00 : (∑ k in Finset.range 3, oblMat.entry k 0 * oblMat.entry k 0) = 1 := by
      norm_num [oblMat, Finset.sum_range_succ]
    have hs11 : (∑ k in Finset.range 3, oblMat.entry k 1 * oblMat.entry k 1) = 1 := by
      norm_num [oblMat, Finset.sum_range_succ]
    rw [hs01, hs00, hs11, Real.sqrt_one]
    norm_num
    field_simp

/-- Claim C8: for every 4x4 affine and tolerance triple,
is_orthogonal_affine computes the angles via get_angles_between_axes in
degrees and returns true exactly when all three angles deviate from 90 by
at most the corresponding tolerance; it is a pure function of its
arguments. -/
theorem is_orthogonal_affine_iff (A : PyMatrix) (t : ℝ × ℝ × ℝ)
    (h : A.rows = 4 ∧ A.cols = 4) :
    get_angles_between_axes A true =
      Except.ok (angleDeg A 0 1, angleDeg A 0 2, angleDeg A 1 2) ∧
    (is_orthogonal_affine A t = Except.ok true ↔
      (|90 - angleDeg A 0 1| ≤ t.1 ∧ |90 - angleDeg A 0 2| ≤ t.2.1 ∧
       |90 - angleDeg A 1 2| ≤ t.2.2)) := by
  have hg : get_angles_between_axes A true =
      Except.ok (angleDeg A 0 1, angleDeg A 0 2, angleDeg A 1 2) := by
    unfold get_angles_between_axes
    rw [if_pos h, if_pos rfl]
  refine ⟨hg, ?_⟩
  unfold is_orthogonal_affine
  rw [hg]
  simp only [Except.ok.injEq, Bool.and_eq_true, realLeB_true_iff, and_assoc]

/-- Witness for C8 at the identity matrix with tolerances (1, 1, 1). -/
theorem is_orthogonal_affine_iff_witness :
    get_angles_between_axes idPyMat true =
      Except.ok (angleDeg idPyMat 0 1, angleDeg idPyMat 0 2, angleDeg idPyMat 1 2) ∧
    (is_orthogonal_affine idPyMat (1, 1, 1) = Except.ok true ↔
      (|90 - angleDeg idPyMat 0 1| ≤ (1 : ℝ) ∧ |90 - angleDeg idPyMat 0 2| ≤ (1 : ℝ) ∧
       |90 - angleDeg idPyMat 1 2| ≤ (1 : ℝ))) :=
  is_orthogonal_affine_iff idPyMat (1, 1, 1) ⟨rfl, rfl⟩

/-! ## Concrete runs used by witnesses -/

theorem computeCore_ord0_volA :
    computeCore trivExt volA [some 1, some 1, some 1] (PyOrder.ord 0) false =
      Except.ok ([1, 1, 1], [1, 1, 1], volA.data) := by
  simp only [computeCore]
  rw [if_pos (by simp [volA]), if_pos volA_consistent]
  norm_num [resolvedZooms, splineZoomFactors, volA, trivExt, List.zipWith]

theorem computeCore_mean_volA :
    computeCore trivExt volA [some 2, some 2, some 2] PyOrder.mean false =
      Except.ok ([2, 2, 2], [1/2, 1/2, 1/2], volA.data) := by
  simp only [computeCore]
  rw [if_pos (by simp [volA]), if_pos volA_consistent, if_pos ?pre]
  case pre =>
    intro p hp
    norm_num [resolvedZooms, volA, List.zipWith] at hp
    subst hp
    norm_num
  norm_num [meanZoomFactors, meanFactor, resolvedZooms, volA, trivExt, windowSizes,
    pyRound, pyInt, Int.fract, round_eq, List.zipWith]

theorem resample_mean_volA :
    resample_nifti trivExt volA [some 2, some 2, some 2] PyOrder.mean false none =
      Except.ok ⟨volA.data, rescaleAffine volA.affine [1/2, 1/2, 1/2], [2, 2, 2]⟩ := by
  unfold resample_nifti
  rw [computeCore_mean_volA]
  rfl

theorem resample_ord0_volA_none :
    resample_nifti trivExt volA [some 1, some 1, some 1] (PyOrder.ord 0) false none =
      Except.ok ⟨volA.data, rescaleAffine volA.affine [1, 1, 1], [1, 1, 1]⟩ := by
  unfold resample_nifti
  rw [computeCore_ord0_volA]
  rfl

theorem resample_ord0_volA_ref :
    resample_nifti trivExt volA [some 1, some 1, some 1] (PyOrder.ord 0) false (some volR) =
      Except.ok ⟨refReconcile volA.data volR.data, volR.affine, [1, 1, 1]⟩ := by
  unfold resample_nifti
  rw [computeCore_ord0_volA]
  simp [finishResample, volR]

/-! ## Resampler claims -/

/-- Claim C3: in mean mode, for every axis the zoom factor is 1 when
input_zoom > 2/3 * output_zoom and otherwise 1 / round(output_zoom /
input_zoom), and the stored output zooms of a successful resample are
recomputed as input_zoom / zoom_factor (snapped to the achievable integer
ratio), where the requested output zooms are first resolved against None
entries. -/
theorem resample_mean_zoom_snapping (ext : Externals) (input_nii : Volume)
    (oz : List (Option ℚ)) (pf : Bool) (ref : Option Volume)
    (ozs fs : List ℚ) (arr : NDArray) (v : Volume)
    (hc : computeCore ext input_nii oz PyOrder.mean pf = Except.ok (ozs, fs, arr))
    (hv : resample_nifti ext input_nii oz PyOrder.mean pf ref = Except.ok v) :
    fs = List.zipWith (fun iz o => if iz > 2/3 * o then 1 else 1 / (pyRound (o / iz) : ℚ))
        input_nii.zooms (resolvedZooms input_nii.zooms oz) ∧
    ozs = List.zipWith (fun iz f => iz / f) input_nii.zooms fs ∧
    v.zooms = ozs := by
  obtain ⟨h1, h2, h3⟩ := computeCore_mean_ok_inv _ _ _ _ _ _ _ hc
  refine ⟨by rw [h1]; rfl, h2, ?_⟩
  cases ref with
  | none => rw [resample_ok_none_inv _ _ _ _ _ _ _ _ _ hc hv]
  | some r => rw [(resample_ok_ref_inv _ _ _ _ _ _ _ _ _ _ hc hv).2]

/-- Witness for C3: volA (zooms (1,1,1)) resampled to (2,2,2) in mean mode
gets zoom factors (1/2, 1/2, 1/2) and stored zooms (2, 2, 2). -/
theorem resample_mean_zoom_snapping_witness :
    ([1/2, 1/2, 1/2] : List ℚ) =
      List.zipWith (fun iz o => if iz > 2/3 * o then 1 else 1 / (pyRound (o / iz) : ℚ))
        volA.zooms (resolvedZooms volA.zooms [some 2, some 2, some 2]) ∧
    ([2, 2, 2] : List ℚ) = List.zipWith (fun iz f => iz / f) volA.zooms [1/2, 1/2, 1/2] ∧
    (⟨volA.data, rescaleAffine volA.affine [1/2, 1/2, 1/2], [2, 2, 2]⟩ : Volume).zooms
      = [2, 2, 2] :=
  resample_mean_zoom_snapping trivExt volA [some 2, some 2, some 2] false none
    [2, 2, 2] [1/2, 1/2, 1/2] volA.data
    ⟨volA.data, rescaleAffine volA.affine [1/2, 1/2, 1/2], [2, 2, 2]⟩
    computeCore_mean_volA resample_mean_volA

/-- Claim C5: with a reference volume whose zooms equal the computed
output zooms, the result has exactly the reference shape, equals the
computed resampled array on the componentwise-minimum overlap box anchored
at index 0, is zero elsewhere, and reuses the reference affine exactly. -/
theorem resample_reference_shape (ext : Externals) (input_nii : Volume)
    (oz : List (Option ℚ)) (order : PyOrder) (pf : Bool) (ref : Volume)
    (ozs fs : List ℚ) (arr : NDArray) (v : Volume)
    (hc : computeCore ext input_nii oz order pf = Except.ok (ozs, fs, arr))
    (href : ref.zooms = ozs)
    (hv : resample_nifti ext input_nii oz order pf (some ref) = Except.ok v) :
    v.data.shape = ref.data.shape ∧
    v.data.val = (fun idx =>
      if inBoxB idx (List.zipWith min arr.shape ref.data.shape) then arr.val idx else 0) ∧
    v.affine = ref.affine := by
  obtain ⟨-, hveq⟩ := resample_ok_ref_inv _ _ _ _ _ _ _ _ _ _ hc hv
  subst hveq
  exact ⟨rfl, rfl, rfl⟩

/-- Witness for C5: volA (shape (2,2,2)) resampled at unchanged zooms
against reference volR (shape (3,3,3)). -/
theorem resample_reference_shape_witness :
    (⟨refReconcile volA.data volR.data, volR.affine, [1, 1, 1]⟩ : Volume).data.shape
      = volR.data.shape ∧
    (⟨refReconcile volA.data volR.data, volR.affine, [1, 1, 1]⟩ : Volume).data.val =
      (fun idx => if inBoxB idx (List.zipWith min volA.data.shape volR.data.shape)
        then volA.data.val idx else 0) ∧
    (⟨refReconcile volA.data volR.data, volR.affine, [1, 1, 1]⟩ : Volume).affine
      = volR.affine :=
  resample_reference_shape trivExt volA [some 1, some 1, some 1] (PyOrder.ord 0) false volR
    [1, 1, 1] [1, 1, 1] volA.data
    ⟨refReconcile volA.data volR.data, volR.affine, [1, 1, 1]⟩
    computeCore_ord0_volA rfl resample_ord0_volA_ref

/-- Claim C6: without a reference volume, the output affine equals the
input affine with each of the three spatial columns of the top-left 3x3
block divided by that axis zoom factor, and every other entry (translation
column, bottom row) unchanged. -/
theorem resample_affine_rescaled (ext : Externals) (input_nii : Volume)
    (oz : List (Option ℚ)) (order : PyOrder) (pf : Bool)
    (ozs fs : List ℚ) (arr : NDArray) (v : Volume)
    (hc : computeCore ext input_nii oz order pf = Except.ok (ozs, fs, arr))
    (hv : resample_nifti ext input_nii oz order pf none = Except.ok v) :
    v.affine = fun i j =>
      if i < 3 ∧ j < 3 then input_nii.affine i j / fs.getD j 1 else input_nii.affine i j := by
  rw [resample_ok_none_inv _ _ _ _ _ _ _ _ _ hc hv]
  rfl

/-- Witness for C6 at volA with unit zoom factors. -/
theorem resample_affine_rescaled_witness :
    (⟨volA.data, rescaleAffine volA.affine [1, 1, 1], [1, 1, 1]⟩ : Volume).affine =
      fun i j => if i < 3 ∧ j < 3 then volA.affine i j / ([1, 1, 1] : List ℚ).getD j 1
        else volA.affine i j :=
  resample_affine_rescaled trivExt volA [some 1, some 1, some 1] (PyOrder.ord 0) false
    [1, 1, 1] [1, 1, 1] volA.data
    ⟨volA.data, rescaleAffine volA.affine [1, 1, 1], [1, 1, 1]⟩
    computeCore_ord0_volA resample_ord0_volA_none

/-- Claim C4 (amended): given that the dimension and affine-consistency
asserts pass, a mean-mode resample raises the integer-factor error exactly
when some axis violates 4/3 * output_zoom >= input_zoom (after None
substitution); the error value carries the full input-zooms tuple, from
which the offending axis is not singled out. -/
theorem resample_mean_precond_error_iff (ext : Externals) (input_nii : Volume)
    (oz : List (Option ℚ)) (pf : Bool) (ref : Option Volume)
    (hlen : input_nii.zooms.length = oz.length)
    (hcons : affineConsistent input_nii.affine input_nii.zooms) :
    resample_nifti ext input_nii oz PyOrder.mean pf ref =
        Except.error (PyErr.assertMeanIntegerFactor input_nii.zooms) ↔
      ¬ meanPrecond (resolvedZooms input_nii.zooms oz) input_nii.zooms := by
  unfold resample_nifti
  simp only [computeCore]
  rw [if_pos hlen, if_pos hcons]
  by_cases hp : meanPrecond (resolvedZooms input_nii.zooms oz) input_nii.zooms
  · rw [if_pos hp]
    simp only [hp, not_true, iff_false]
    cases ref with
    | none => simp [finishResample]
    | some r =>
      simp only [finishResample]
      split
      · simp
      · simp
  · rw [if_neg hp]
    simp [hp]

/-- Witness for C4 (amended) at vol3 with requested zooms (1, 3, 3). -/
theorem resample_mean_precond_error_iff_witness :
    resample_nifti trivExt vol3 [some 1, some 3, some 3] PyOrder.mean false none =
        Except.error (PyErr.assertMeanIntegerFactor vol3.zooms) ↔
      ¬ meanPrecond (resolvedZooms vol3.zooms [some 1, some 3, some 3]) vol3.zooms :=
  resample_mean_precond_error_iff trivExt vol3 [some 1, some 3, some 3] false none
    rfl vol3_consistent

/-- Claim C4 counterexample: on vol3 (zooms (3,3,3)) the requested zooms
(1,3,3) make axis 0 the only offending axis while (3,3,1) makes axis 2 the
only offending one, yet both calls raise the identical error value
(carrying the whole input-zooms tuple), so the raised error does not name
the offending axis.  The last two conjuncts verify which axis offends:
4/3 * 1 >= 3 fails while 4/3 * 3 >= 3 holds. -/
theorem resample_mean_error_ignores_offending_axis :
    resample_nifti trivExt vol3 [some 1, some 3, some 3] PyOrder.mean false none =
      Except.error (PyErr.assertMeanIntegerFactor [3, 3, 3]) ∧
    resample_nifti trivExt vol3 [some 3, some 3, some 1] PyOrder.mean false none =
      Except.error (PyErr.assertMeanIntegerFactor [3, 3, 3]) ∧
    ¬ (4/3 * (1:ℚ) ≥ 3) ∧ (4/3 * (3:ℚ) ≥ 3) := by
  refine ⟨?_, ?_, by norm_num, by norm_num⟩
  · unfold resample_nifti
    simp only [computeCore]
    rw [if_pos (show vol3.zooms.length = ([some 1, some 3, some 3] : List (Option ℚ)).length from rfl),
      if_pos vol3_consistent, if_neg ?neg1]
    case neg1 =>
      intro hp
      have hmem := hp (1, 3) (by norm_num [resolvedZooms, vol3, List.zipWith])
      norm_num at hmem
    rfl
  · unfold resample_nifti
    simp only [computeCore]
    rw [if_pos (show vol3.zooms.length = ([some 3, some 3, some 1] : List (Option ℚ)).length from rfl),
      if_pos vol3_consistent, if_neg ?neg2]
    case neg2 =>
      intro hp
      have hmem := hp (1, 3) (by norm_num [resolvedZooms, vol3, List.zipWith])
      norm_num at hmem
    rfl

/-- Claim C7: resampling a consistent volume with zooms (1,1,1) to output
zooms (1,1,1) at spline order 3 with prefilter false and no reference
returns the input data array and affine exactly, provided the external
N-dimensional zoom primitive is the identity at unit zoom factors (spline
interpolation sampled exactly at the original grid points). -/
theorem resample_identity_at_unit_zooms (ext : Externals) (input_nii : Volume)
    (hz : input_nii.zooms = [1, 1, 1])
    (hcons : affineConsistent input_nii.affine input_nii.zooms)
    (hzoom : ext.zoom input_nii.data [1, 1, 1] 3 = input_nii.data) :
    resample_nifti ext input_nii [some 1, some 1, some 1] (PyOrder.ord 3) false none =
      Except.ok ⟨input_nii.data, input_nii.affine, [1, 1, 1]⟩ := by
  have hres : resolvedZooms input_nii.zooms [some 1, some 1, some 1] = [1, 1, 1] := by
    rw [hz]; rfl
  have hfac : splineZoomFactors input_nii.zooms
      (resolvedZooms input_nii.zooms [some 1, some 1, some 1]) = [1, 1, 1] := by
    rw [hres, hz]
    norm_num [splineZoomFactors, List.zipWith]
  have hcore : computeCore ext input_nii [some 1, some 1, some 1] (PyOrder.ord 3) false =
      Except.ok ([1, 1, 1], [1, 1, 1], input_nii.data) := by
    simp only [computeCore]
    rw [if_pos (by rw [hz]; rfl), if_pos hcons]
    rw [hfac, hres, if_neg (by simp), hzoom]
  unfold resample_nifti
  rw [hcore]
  have hfin : finishResample input_nii none [1, 1, 1] [1, 1, 1] input_nii.data =
      Except.ok ⟨input_nii.data, input_nii.affine, [1, 1, 1]⟩ := by
    simp only [finishResample]
    rw [rescaleAffine_ones]
  exact hfin

/-- Witness for C7 at volA with the identity externals. -/
theorem resample_identity_at_unit_zooms_witness :
    resample_nifti trivExt volA [some 1, some 1, some 1] (PyOrder.ord 3) false none =
      Except.ok ⟨volA.data, volA.affine, [1, 1, 1]⟩ :=
  resample_identity_at_unit_zooms trivExt volA rfl volA_consistent rfl

/-- Claim C10 (amended): under the mean-mode precondition 4/3 * output >=
input and provided the input zoom is positive, an axis that is not left
unchanged satisfies input <= 2/3 * output and its rounded divisor
round(output/input) is at least 2; hence the per-axis zoom factor is
nonzero (no division by zero) and the block-mean window size
int(1/zoom_factor) is at least 1. -/
theorem mean_factor_safe (iz oz : ℚ) (hpos : 0 < iz) (hpre : 4/3 * oz ≥ iz) :
    (¬ iz > 2/3 * oz → iz ≤ 2/3 * oz ∧ 2 ≤ pyRound (oz / iz)) ∧
    meanFactor iz oz ≠ 0 ∧
    1 ≤ pyInt (1 / meanFactor iz oz) := by
  by_cases hch : iz > 2/3 * oz
  · refine ⟨fun hc => absurd hch hc, ?_, ?_⟩
    · unfold meanFactor
      rw [if_pos hch]
      norm_num
    · unfold meanFactor
      rw [if_pos hch]
      norm_num [pyInt]
  · have hle : iz ≤ 2/3 * oz := le_of_not_lt hch
    have hdiv : 3/2 ≤ oz / iz := by
      rw [le_div_iff₀ hpos]
      linarith
    have hr2 : 2 ≤ pyRound (oz / iz) := pyRound_ge_two _ hdiv
    have hne : (pyRound (oz / iz) : ℚ) ≠ 0 := by
      have : (0:ℚ) < (pyRound (oz / iz) : ℚ) := by exact_mod_cast lt_of_lt_of_le two_pos hr2
      exact ne_of_gt this
  -- above: 0 < 2 ≤ pyRound, cast to ℚ
    refine ⟨fun _ => ⟨hle, hr2⟩, ?_, ?_⟩
    · unfold meanFactor
      rw [if_neg hch]
      exact one_div_ne_zero hne
    · unfold meanFactor
      rw [if_neg hch, one_div_one_div, pyInt_intCast]
      omega

/-- Witness for C10 (amended) at input zoom 1, output zoom 2. -/
theorem mean_factor_safe_witness :
    (¬ (1:ℚ) > 2/3 * 2 → (1:ℚ) ≤ 2/3 * 2 ∧ 2 ≤ pyRound ((2:ℚ) / 1)) ∧
    meanFactor 1 2 ≠ 0 ∧
    1 ≤ pyInt (1 / meanFactor 1 2) :=
  mean_factor_safe 1 2 (by norm_num) (by norm_num)

/-- Claim C10 counterexample: with input zoom 0 and requested output zoom 0
on an axis (a degenerate axis passes the consistency assert when its affine
column is zero), the mean-mode precondition 4/3 * 0 >= 0 holds and the axis
is not left unchanged (0 > 2/3 * 0 is false), yet the rounded divisor
round(0/0) is 0, not an integer >= 2: in Python output_zoom / input_zoom
raises ZeroDivisionError, and in the total rational model the zoom factor
and the window size collapse to 0 instead of being >= 1. -/
theorem mean_factor_unsafe_zero_zoom :
    meanPrecond (resolvedZooms [1, 1, 0] [some 1, some 1, some 0]) [1, 1, 0] ∧
    ¬ ((0:ℚ) > 2/3 * 0) ∧
    pyRound ((0:ℚ) / 0) = 0 ∧
    meanFactor 0 0 = 0 ∧
    pyInt (1 / meanFactor 0 0) = 0 := by
  refine ⟨?_, by norm_num, ?_, ?_, ?_⟩
  · intro p hp
    norm_num [resolvedZooms, List.zipWith] at hp
    rcases hp with h | h <;> subst h <;> norm_num
  · norm_num [pyRound, Int.fract, round_eq]
  · norm_num [meanFactor, pyRound, Int.fract, round_eq]
  · norm_num [meanFactor, pyRound, pyInt, Int.fract, round_eq]
